import Mathlib

/-!
# Verification of `kremlib/testlib.c`

A shallow embedding of the test-support library `src/kremlib/testlib.c` of
the kremlin repository fragment, together with theorems settling the
specified properties.

Modelling conventions:
* A byte buffer (`uint8_t *` plus a size) is a `List Nat` whose entries are
  the byte values; theorems that depend on the `uint8_t` range carry the
  hypothesis that every entry is `< 256`.
* The observable behaviour of one call is a `Trace`: the lines printed to
  stdout and stderr, the exit status (`none` = the function returns
  normally, `some c` = the process terminates with exit code `c`), the
  heap blocks the call `malloc`s (numbered in allocation order), the blocks
  it `free`s, and a log of every store the call performs into heap memory,
  as `(block id, offset, byte value)` triples.  The input buffers are not
  heap blocks of the call, so a store into them would be visible in the
  log as a write outside `allocs`.
* `malloc` results are threaded explicitly where a claim depends on
  allocation failure: an `Option Nat` argument is the pointer `malloc`
  returned (`none` = `NULL`).  On the main (all-allocations-succeed) path
  the functions are pure `Trace` producers.
* Integer arithmetic is over `Nat`/`Int` (exact); `clock_t` and
  `TestLib_cycles` arithmetic is over `Int` and the `%f`-printed quantity
  of the timing helpers is carried as an exact `ℚ` next to the format
  line, since binary floating point itself is not modelled.
-/

/-- The C standard library constant `EXIT_FAILURE` (value 1 on POSIX platforms). -/
def EXIT_FAILURE : Nat := 1

/-- One lowercase hexadecimal digit, as produced by `printf`'s `%x`
conversion: `0`-`9` then `a`-`f`. -/
def hexDigit (v : Nat) : Char :=
  if v < 10 then Char.ofNat (48 + v) else Char.ofNat (97 + (v - 10))

/-- The characters that `sprintf(str + 2*i, "%02x", buf[i])` produces over a
whole buffer: two zero-padded lowercase hex digits per byte, in buffer
order.  (`buf[i]` is a `uint8_t`, so the value is `< 256` and `%02x` emits
exactly two digits.) -/
def hexChars : List Nat → List Char
  | [] => []
  | b :: bs => hexDigit (b / 16) :: hexDigit (b % 16) :: hexChars bs

/-- The hex rendering of a buffer as a string (the content of the heap
string built by `print_buf` / `TestLib_compare_and_print` lines 5-7 and
15-20, before the terminating NUL). -/
def hexStr (l : List Nat) : String := String.mk (hexChars l)

/-- The observable behaviour of one library call.  `exit = none` means the
call returns normally; `exit = some c` means it terminates the process
with exit code `c`. -/
structure Trace where
  stdout : List String
  stderr : List String
  exit : Option Nat
  allocs : List Nat
  frees : List Nat
  writes : List (Nat × Nat × Nat)
deriving Repr, DecidableEq

/-- The three stores performed by one `sprintf(str + off, "%02x", b)` call
into heap block `blk`: the two hex digits at `off` and `off+1`, and the
terminating NUL at `off+2` (overwritten by the next iteration's digits,
or by the explicit terminator store after the loop). -/
def sprintfWrites (blk off b : Nat) : List (Nat × Nat × Nat) :=
  [(blk, off, (hexDigit (b / 16)).toNat),
   (blk, off + 1, (hexDigit (b % 16)).toNat),
   (blk, off + 2, 0)]

/-- The stores of the formatting loop of `print_buf` (lines 5-6): for each
`i`, one `sprintf` into block `blk` at offset `2*i`. -/
def fmtWrites (blk off : Nat) : List Nat → List (Nat × Nat × Nat)
  | [] => []
  | b :: bs => sprintfWrites blk off b ++ fmtWrites blk (off + 2) bs

/-- Function `print_buf` (testlib.c lines 3-9): `malloc` a `2*size+1` byte string
(block 0), hex-format `buf` into it, NUL-terminate it, print it with the
`file:line:` prefix.  The block is never freed. -/
def print_buf (buf : List Nat) (file : String) (line : Int) : Trace :=
  { stdout := [file ++ ":" ++ toString line ++ ": " ++ hexStr buf]
    stderr := []
    exit := none
    allocs := [0]
    frees := []
    writes := fmtWrites 0 0 buf ++ [(0, 2 * buf.length, 0)] }

/-- The interleaved stores of the formatting loop of
`TestLib_compare_and_print` (lines 15-18): at each `i`, `sprintf` of
`output[i]` into block 0 (`str`) then of `reference[i]` into block 1
(`str_ref`), both at offset `2*i`. -/
def cmpFmtWrites (off : Nat) : List Nat → List Nat → List (Nat × Nat × Nat)
  | [], _ => []
  | _ :: _, [] => []
  | r :: rs, o :: os =>
      sprintfWrites 0 off o ++ sprintfWrites 1 off r ++ cmpFmtWrites (off + 2) rs os

/-- The mismatch message printed to stderr at byte index `i`
(testlib.c lines 26-27). -/
def differLine (txt : String) (i : Nat) : String :=
  "[test] reference " ++ txt ++ " and expected " ++ txt ++
    " differ at byte " ++ toString i

/-- The comparison loop of `TestLib_compare_and_print` (lines 24-30):
walk both buffers from index `i`; at the first position where the output
byte differs from the reference byte, print the mismatch message to
stderr and exit with `EXIT_FAILURE`; if no position differs, fall through
(no stderr output, no exit). -/
def cmpLoop (txt : String) (i : Nat) :
    List Nat → List Nat → List String × Option Nat
  | [], _ => ([], none)
  | _ :: _, [] => ([], none)
  | r :: rs, o :: os =>
      if o ≠ r then ([differLine txt i], some EXIT_FAILURE)
      else cmpLoop txt (i + 1) rs os

/-- The success message of `TestLib_compare_and_print` (line 32). -/
def successLine (txt : String) : String := "[test] " ++ txt ++ " is a success"

/-- Function `TestLib_compare_and_print` (testlib.c lines 11-36): `malloc` two
hex-string blocks (`str` = block 0, `str_ref` = block 1), format
`output` into `str` and `reference` into `str_ref`, print the expected
line then the computed line to stdout, then compare byte-by-byte: on the
first mismatch print the differ message to stderr and exit with
`EXIT_FAILURE` (before the `free` calls are reached); otherwise print the
success message and free both blocks. -/
def TestLib_compare_and_print (txt : String) (reference output : List Nat) :
    Trace :=
  { stdout := ["[test] expected output " ++ txt ++ " is " ++ hexStr reference,
               "[test] computed output " ++ txt ++ " is " ++ hexStr output] ++
      (if (cmpLoop txt 0 reference output).2 = none then [successLine txt]
       else [])
    stderr := (cmpLoop txt 0 reference output).1
    exit := (cmpLoop txt 0 reference output).2
    allocs := [0, 1]
    frees := if (cmpLoop txt 0 reference output).2 = none then [0, 1] else []
    writes := cmpFmtWrites 0 reference output ++
      [(0, 2 * output.length, 0), (1, 2 * reference.length, 0)] }

/-- Function `TestLib_touch` (testlib.c line 38): empty body, no effect. -/
def TestLib_touch (_x : Int) : Trace :=
  { stdout := [], stderr := [], exit := none
    allocs := [], frees := [], writes := [] }

/-- The failure message of the `MK_CHECK`/`MK_UCHECK` checkers
(lines 43 and 55): both `PRId`*n* and `PRIu`*n* print the value in
decimal. -/
def checkFailLine (x y : String) : String :=
  "Test check failure: " ++ x ++ " != " ++ y

/-- Body shared by the four signed checkers `TestLib_check8/16/32/64`
(macro `MK_CHECK`, lines 40-50): if `x != y`, print the failure message
and exit with code 253; otherwise return normally. -/
def checkBody (x y : Int) : Trace :=
  if x ≠ y then
    { stdout := [checkFailLine (toString x) (toString y)], stderr := []
      exit := some 253, allocs := [], frees := [], writes := [] }
  else
    { stdout := [], stderr := [], exit := none
      allocs := [], frees := [], writes := [] }

/-- Body shared by the four unsigned checkers `TestLib_checku8/16/32/64`
(macro `MK_UCHECK`, lines 52-62). -/
def ucheckBody (x y : Nat) : Trace :=
  if x ≠ y then
    { stdout := [checkFailLine (toString x) (toString y)], stderr := []
      exit := some 253, allocs := [], frees := [], writes := [] }
  else
    { stdout := [], stderr := [], exit := none
      allocs := [], frees := [], writes := [] }

/-- Checker `TestLib_check8` (`MK_CHECK(8)`, line 47). -/
def TestLib_check8 (x y : Int) : Trace := checkBody x y

/-- Checker `TestLib_check16` (`MK_CHECK(16)`, line 48). -/
def TestLib_check16 (x y : Int) : Trace := checkBody x y

/-- Checker `TestLib_check32` (`MK_CHECK(32)`, line 49). -/
def TestLib_check32 (x y : Int) : Trace := checkBody x y

/-- Checker `TestLib_check64` (`MK_CHECK(64)`, line 50). -/
def TestLib_check64 (x y : Int) : Trace := checkBody x y

/-- Checker `TestLib_checku8` (`MK_UCHECK(8)`, line 59). -/
def TestLib_checku8 (x y : Nat) : Trace := ucheckBody x y

/-- Checker `TestLib_checku16` (`MK_UCHECK(16)`, line 60). -/
def TestLib_checku16 (x y : Nat) : Trace := ucheckBody x y

/-- Checker `TestLib_checku32` (`MK_UCHECK(32)`, line 61). -/
def TestLib_checku32 (x y : Nat) : Trace := ucheckBody x y

/-- Checker `TestLib_checku64` (`MK_UCHECK(64)`, line 62). -/
def TestLib_checku64 (x y : Nat) : Trace := ucheckBody x y

/-- Function `TestLib_unsafe_malloc` (testlib.c lines 64-71).  The argument
`memblob` is the pointer `malloc(size)` returned (`none` = `NULL`): on
`NULL` the function prints a warning and exits with `EXIT_FAILURE`;
otherwise it returns the pointer.  The second component is the value
returned to the caller. -/
def TestLib_unsafe_malloc (_size : Nat) (memblob : Option Nat) :
    Trace × Option Nat :=
  match memblob with
  | none =>
      ({ stdout := [" WARNING : malloc failed in tests !"], stderr := []
         exit := some EXIT_FAILURE, allocs := [], frees := [], writes := [] },
       none)
  | some p =>
      ({ stdout := [], stderr := [], exit := none
         allocs := [p], frees := [], writes := [] },
       some p)

/-- Function `print_buf` with its internal `malloc` result made explicit.  The
source (line 4) binds `str = malloc(2*size+1)` and never tests it: when
`malloc` returns `NULL` (`m1 = none`), the next executed store — the
first `sprintf` of line 6, or the terminator store of line 7 when
`size = 0` — dereferences the null pointer, which is undefined behaviour,
modelled as `Except.error ()`.  There is no deliberate termination path. -/
def print_buf_on_alloc (buf : List Nat) (file : String) (line : Int)
    (m1 : Option Nat) : Except Unit Trace :=
  match m1 with
  | none => Except.error ()
  | some _ => Except.ok (print_buf buf file line)

/-- Function `TestLib_compare_and_print` with its two internal `malloc` results
made explicit (lines 13-14).  Neither result is tested by the source:
if either is `NULL`, the formatting loop (or, for `size = 0`, the
terminator stores of lines 19-20) writes through the null pointer —
undefined behaviour, modelled as `Except.error ()`. -/
def TestLib_compare_and_print_on_alloc (txt : String)
    (reference output : List Nat) (m1 m2 : Option Nat) : Except Unit Trace :=
  match m1, m2 with
  | some _, some _ => Except.ok (TestLib_compare_and_print txt reference output)
  | _, _ => Except.error ()

/-- The C standard library constant `CLOCKS_PER_SEC` (1000000 on POSIX). -/
def CLOCKS_PER_SEC : ℚ := 1000000

/-- Function `TestLib_print_clock_diff` (testlib.c lines 73-75): prints
`User time: %f` with the value `((double)t2 - t1) / CLOCKS_PER_SEC`.
The second component is that printed quantity, carried exactly as a
rational (the `double` arithmetic is exact on `clock_t` differences of
realistic magnitude). -/
def TestLib_print_clock_diff (t1 t2 : Int) : Trace × ℚ :=
  ({ stdout := ["User time: %f"], stderr := [], exit := none
     allocs := [], frees := [], writes := [] },
   ((t2 : ℚ) - (t1 : ℚ)) / CLOCKS_PER_SEC)

/-- Function `TestLib_perr` (testlib.c lines 77-79): print the error code, return
normally. -/
def TestLib_perr (err_code : Nat) : Trace :=
  { stdout := ["Got error code " ++ toString err_code ++ "."], stderr := []
    exit := none, allocs := [], frees := [], writes := [] }

/-- Function `TestLib_print_cycles_per_round` (testlib.c lines 81-85): prints the
`[perf]` line with the value `(float)(c2 - c1) / rounds`.  The cycle
counters are modelled as integers (`TestLib_cycles` is declared in the
missing header `testlib.h`); the second component is the printed
quantity as an exact rational. -/
def TestLib_print_cycles_per_round (c1 c2 : Int) (rounds : Nat) :
    Trace × ℚ :=
  ({ stdout := ["[perf] cpu cycles per round (averaged over " ++
       toString rounds ++ ") is %f"], stderr := [], exit := none
     allocs := [], frees := [], writes := [] },
   ((c2 : ℚ) - (c1 : ℚ)) / (rounds : ℚ))

/-- The index of the first position at which the output buffer differs
from the reference buffer (comparison order of the loop at lines 24-30). -/
def firstDiff : List Nat → List Nat → Option Nat
  | [], _ => none
  | _ :: _, [] => none
  | r :: rs, o :: os =>
      if o ≠ r then some 0 else (firstDiff rs os).map (· + 1)

/-- Specification-side predicate: `c` is the zero-padded lowercase
hexadecimal digit of value `v` (`0`-`9` for `v < 10`, `a`-`f` for
`10 ≤ v < 16`), stated independently of `hexDigit`. -/
def IsLowerHexDigit (c : Char) (v : Nat) : Prop :=
  (v < 10 ∧ c.toNat = 48 + v) ∨ (10 ≤ v ∧ v < 16 ∧ c.toNat = 97 + (v - 10))

instance (c : Char) (v : Nat) : Decidable (IsLowerHexDigit c v) := by
  unfold IsLowerHexDigit; infer_instance

/-- When no position differs, the comparison loop falls through: no stderr
output and no exit. -/
theorem cmpLoop_of_firstDiff_none (txt : String) (rs : List Nat) :
    ∀ (os : List Nat) (k : Nat), firstDiff rs os = none →
      cmpLoop txt k rs os = ([], none) := by
  induction rs with
  | nil => intro os k _; rfl
  | cons r rs ih =>
    intro os k h
    cases os with
    | nil => rfl
    | cons o os =>
      rw [firstDiff] at h
      rw [cmpLoop]
      by_cases hne : o = r
      · subst hne
        rw [if_neg (fun hc => hc rfl)] at h
        rw [if_neg (fun hc => hc rfl)]
        cases hfd : firstDiff rs os with
        | some j0 => rw [hfd] at h; simp at h
        | none => exact ih os (k + 1) hfd
      · rw [if_pos hne] at h
        exact Option.noConfusion h

/-- When some position differs, the comparison loop stops at the first
such position: one mismatch line on stderr and exit `EXIT_FAILURE`. -/
theorem cmpLoop_of_firstDiff_some (txt : String) (rs : List Nat) :
    ∀ (os : List Nat) (k j : Nat), firstDiff rs os = some j →
      cmpLoop txt k rs os = ([differLine txt (k + j)], some EXIT_FAILURE) := by
  induction rs with
  | nil => intro os k j h; exact Option.noConfusion h
  | cons r rs ih =>
    intro os k j h
    cases os with
    | nil => exact Option.noConfusion h
    | cons o os =>
      rw [firstDiff] at h
      rw [cmpLoop]
      by_cases hne : o = r
      · subst hne
        rw [if_neg (fun hc => hc rfl)] at h
        rw [if_neg (fun hc => hc rfl)]
        cases hfd : firstDiff rs os with
        | none => rw [hfd] at h; simp at h
        | some j0 =>
          rw [hfd] at h
          simp only [Option.map] at h
          have hj : j0 + 1 = j := by
            have := Option.some.inj h
            simpa using this
          rw [ih os (k + 1) j0 hfd]
          have harith : k + 1 + j0 = k + j := by omega
          rw [harith]
      · rw [if_pos hne] at h
        rw [if_pos hne]
        have hj : (0 : Nat) = j := Option.some.inj h
        subst hj
        simp

/-- Absence of a first difference is pointwise equality of the output
buffer with the reference buffer (for buffers of equal length). -/
theorem firstDiff_eq_none_iff (rs : List Nat) :
    ∀ os : List Nat, rs.length = os.length →
      (firstDiff rs os = none ↔
        ∀ i, i < rs.length → os.getD i 0 = rs.getD i 0) := by
  induction rs with
  | nil => intro os _; simp [firstDiff]
  | cons r rs ih =>
    intro os h
    cases os with
    | nil => simp at h
    | cons o os =>
      have h2 : rs.length = os.length := by
        simp only [List.length_cons] at h; omega
      rw [firstDiff]
      by_cases hne : o = r
      · subst hne
        rw [if_neg (fun hc => hc rfl)]
        constructor
        · intro hmap i hi
          cases i with
          | zero => rfl
          | succ i =>
            have hi2 : i < rs.length := by
              simp only [List.length_cons] at hi; omega
            have hnone : firstDiff rs os = none := by
              cases hfd : firstDiff rs os with
              | none => rfl
              | some j0 => rw [hfd] at hmap; simp at hmap
            exact ((ih os h2).mp hnone) i hi2
        · intro hall
          have hnone : firstDiff rs os = none := by
            refine (ih os h2).mpr (fun i hi => ?_)
            have := hall (i + 1)
              (by simp only [List.length_cons]; omega)
            simpa using this
          rw [hnone]
          rfl
      · rw [if_pos hne]
        constructor
        · intro hfalse; exact absurd hfalse (by simp)
        · intro hall
          have h0 := hall 0 (by simp)
          simp only [List.getD_cons_zero] at h0
          exact absurd h0 hne

/-- The index the comparison reports is a genuine mismatch, and it is the
least one: every earlier position agrees. -/
theorem firstDiff_eq_some_spec (rs : List Nat) :
    ∀ (os : List Nat) (j : Nat), firstDiff rs os = some j →
      j < rs.length ∧ j < os.length ∧ os.getD j 0 ≠ rs.getD j 0 ∧
        ∀ k, k < j → os.getD k 0 = rs.getD k 0 := by
  induction rs with
  | nil => intro os j h; exact Option.noConfusion h
  | cons r rs ih =>
    intro os j h
    cases os with
    | nil => exact Option.noConfusion h
    | cons o os =>
      rw [firstDiff] at h
      by_cases hne : o = r
      · subst hne
        rw [if_neg (fun hc => hc rfl)] at h
        cases hfd : firstDiff rs os with
        | none => rw [hfd] at h; simp at h
        | some j0 =>
          rw [hfd] at h
          simp only [Option.map] at h
          have hj : j0 + 1 = j := by
            have := Option.some.inj h
            simpa using this
          subst hj
          obtain ⟨h1, h2, h3, h4⟩ := ih os j0 hfd
          refine ⟨by simp only [List.length_cons]; omega,
            by simp only [List.length_cons]; omega,
            by simpa using h3, ?_⟩
          intro k hk
          cases k with
          | zero => rfl
          | succ k =>
            simp only [List.getD_cons_succ]
            exact h4 k (by omega)
      · rw [if_pos hne] at h
        have hj : (0 : Nat) = j := Option.some.inj h
        subst hj
        refine ⟨by simp, by simp, by simpa using hne, ?_⟩
        intro k hk
        omega

/-- The hex rendering has exactly two characters per byte. -/
theorem hexChars_length (l : List Nat) : (hexChars l).length = 2 * l.length := by
  induction l with
  | nil => rfl
  | cons b bs ih =>
    simp only [hexChars, List.length_cons, ih]
    omega

/-- Characters `2*i` and `2*i+1` of the hex rendering are the two hex
digits of byte `i`. -/
theorem hexChars_getD (l : List Nat) :
    ∀ i : Nat, i < l.length → ∀ d : Char,
      (hexChars l).getD (2 * i) d = hexDigit (l.getD i 0 / 16) ∧
      (hexChars l).getD (2 * i + 1) d = hexDigit (l.getD i 0 % 16) := by
  induction l with
  | nil => intro i hi _; simp at hi
  | cons b bs ih =>
    intro i hi d
    cases i with
    | zero => exact ⟨rfl, rfl⟩
    | succ i =>
      have hi2 : i < bs.length := by
        simp only [List.length_cons] at hi; omega
      constructor
      · have h2 : 2 * (i + 1) = 2 * i + 1 + 1 := by omega
        rw [h2]
        simp only [hexChars, List.getD_cons_succ]
        exact (ih i hi2 d).1
      · have h3 : 2 * (i + 1) + 1 = 2 * i + 1 + 1 + 1 := by omega
        rw [h3]
        simp only [hexChars, List.getD_cons_succ]
        exact (ih i hi2 d).2

/-- For digit values below 16, `hexDigit` meets the specification-side
predicate `IsLowerHexDigit`. -/
theorem hexDigit_isLowerHexDigit : ∀ v, v < 16 →
    IsLowerHexDigit (hexDigit v) v := by decide

/-- Bytes of a buffer read through `getD` stay below 256 when every
entry does. -/
theorem getD_lt_256 (l : List Nat) (hbytes : ∀ b ∈ l, b < 256)
    (i : Nat) (hi : i < l.length) : l.getD i 0 < 256 := by
  induction l generalizing i with
  | nil => simp at hi
  | cons b bs ih =>
    cases i with
    | zero => exact hbytes b (by simp)
    | succ i =>
      have hi2 : i < bs.length := by
        simp only [List.length_cons] at hi; omega
      simp only [List.getD_cons_succ]
      exact ih (fun c hc => hbytes c (by simp [hc])) i hi2

/-- C7: the hex rendering produced by `print_buf` and by
`TestLib_compare_and_print` for a buffer of `n` bytes has exactly `2*n`
lowercase hexadecimal characters, characters `2*i` and `2*i+1` being the
zero-padded two-digit hex encoding (high digit `byte/16`, low digit
`byte%16`) of byte `i`, for every `i < n`; the string is NUL-terminated
by the explicit terminator store at offset `2*n`. -/
theorem hex_rendering_correct (l : List Nat) (file : String) (line : Int)
    (hbytes : ∀ b ∈ l, b < 256) :
    (hexStr l).length = 2 * l.length ∧
    (∀ i, i < l.length →
      IsLowerHexDigit ((hexStr l).data.getD (2 * i) ' ') (l.getD i 0 / 16) ∧
      IsLowerHexDigit ((hexStr l).data.getD (2 * i + 1) ' ') (l.getD i 0 % 16)) ∧
    (0, 2 * l.length, 0) ∈ (print_buf l file line).writes := by
  refine ⟨hexChars_length l, ?_, ?_⟩
  · intro i hi
    have hb : l.getD i 0 < 256 := getD_lt_256 l hbytes i hi
    have e := hexChars_getD l i hi ' '
    constructor
    · show IsLowerHexDigit ((hexChars l).getD (2 * i) ' ') (l.getD i 0 / 16)
      rw [e.1]
      exact hexDigit_isLowerHexDigit _ (by omega)
    · show IsLowerHexDigit ((hexChars l).getD (2 * i + 1) ' ') (l.getD i 0 % 16)
      rw [e.2]
      exact hexDigit_isLowerHexDigit _ (by omega)
  · simp [print_buf]

/-- Concrete instance of the hex-rendering theorem: byte `0xab` at index 0
of the buffer `[171, 205]` renders as the character pair of value
`171/16 = 10` (so the letter `a`) and the rendering has length 4. -/
theorem hex_rendering_correct_witness :
    (hexStr [171, 205]).length = 2 * [171, 205].length ∧
    IsLowerHexDigit ((hexStr [171, 205]).data.getD 0 ' ') (171 / 16) :=
  ⟨(hex_rendering_correct [171, 205] "f" 1 (by decide)).1,
   by
     have h := ((hex_rendering_correct [171, 205] "f" 1
       (by decide)).2.1 0 (by decide)).1
     simpa using h⟩

/-- C1: for buffers of equal length `n`, pointwise equality makes
`TestLib_compare_and_print` return normally (no exit) with the success
message on stdout, while a mismatch at any index makes it terminate the
process with `EXIT_FAILURE` after printing a mismatch message to
stderr. -/
theorem compare_and_print_verdict (txt : String) (reference output : List Nat)
    (n : Nat) (hr : reference.length = n) (ho : output.length = n) :
    ((∀ i, i < n → output.getD i 0 = reference.getD i 0) →
       (TestLib_compare_and_print txt reference output).exit = none ∧
       successLine txt ∈ (TestLib_compare_and_print txt reference output).stdout) ∧
    ((∃ i, i < n ∧ output.getD i 0 ≠ reference.getD i 0) →
       (TestLib_compare_and_print txt reference output).exit =
         some EXIT_FAILURE ∧
       ∃ j, (TestLib_compare_and_print txt reference output).stderr =
         [differLine txt j]) := by
  subst hr
  have hlen : reference.length = output.length := by omega
  constructor
  · intro hall
    have hnone : firstDiff reference output = none :=
      (firstDiff_eq_none_iff reference output hlen).mpr hall
    have hc := cmpLoop_of_firstDiff_none txt reference output 0 hnone
    constructor
    · show (cmpLoop txt 0 reference output).2 = none
      rw [hc]
    · simp [TestLib_compare_and_print, hc]
  · rintro ⟨i, hi, hdiff⟩
    cases hfd : firstDiff reference output with
    | none =>
      exact absurd (((firstDiff_eq_none_iff reference output hlen).mp hfd)
        i hi) hdiff
    | some j =>
      have hc := cmpLoop_of_firstDiff_some txt reference output 0 j hfd
      constructor
      · show (cmpLoop txt 0 reference output).2 = some EXIT_FAILURE
        rw [hc]
      · refine ⟨j, ?_⟩
        show (cmpLoop txt 0 reference output).1 = [differLine txt j]
        rw [hc]
        simp

/-- Concrete instance of the verdict theorem: on `reference = [1, 2]`,
`output = [1, 3]` the call exits with `EXIT_FAILURE`, and on equal
buffers `[1, 2]` it returns normally. -/
theorem compare_and_print_verdict_witness :
    (TestLib_compare_and_print "t" [1, 2] [1, 3]).exit = some EXIT_FAILURE ∧
    (TestLib_compare_and_print "t" [1, 2] [1, 2]).exit = none :=
  ⟨((compare_and_print_verdict "t" [1, 2] [1, 3] 2 rfl rfl).2
      ⟨1, by decide, by decide⟩).1,
   ((compare_and_print_verdict "t" [1, 2] [1, 2] 2 rfl rfl).1
      (by decide)).1⟩

/-- C3: on differing buffers of equal length, `TestLib_compare_and_print`
prints exactly the two complete hex renderings (the expected line then
the computed line) on stdout, then aborts with `EXIT_FAILURE`; the byte
index on stderr is the least mismatch index. -/
theorem compare_and_print_mismatch_detail (txt : String)
    (reference output : List Nat) (n : Nat)
    (hr : reference.length = n) (ho : output.length = n)
    (hdiff : ∃ i, i < n ∧ output.getD i 0 ≠ reference.getD i 0) :
    ∃ j, j < n ∧ output.getD j 0 ≠ reference.getD j 0 ∧
      (∀ k, k < j → output.getD k 0 = reference.getD k 0) ∧
      (TestLib_compare_and_print txt reference output).stdout =
        ["[test] expected output " ++ txt ++ " is " ++ hexStr reference,
         "[test] computed output " ++ txt ++ " is " ++ hexStr output] ∧
      (TestLib_compare_and_print txt reference output).stderr =
        [differLine txt j] ∧
      (TestLib_compare_and_print txt reference output).exit =
        some EXIT_FAILURE := by
  subst hr
  have hlen : reference.length = output.length := by omega
  obtain ⟨i, hi, hd⟩ := hdiff
  cases hfd : firstDiff reference output with
  | none =>
    exact absurd (((firstDiff_eq_none_iff reference output hlen).mp hfd)
      i hi) hd
  | some j =>
    obtain ⟨hj1, _, hj3, hj4⟩ := firstDiff_eq_some_spec reference output j hfd
    have hc := cmpLoop_of_firstDiff_some txt reference output 0 j hfd
    refine ⟨j, hj1, hj3, hj4, ?_, ?_, ?_⟩
    · simp [TestLib_compare_and_print, hc]
    · show (cmpLoop txt 0 reference output).1 = [differLine txt j]
      rw [hc]
      simp
    · show (cmpLoop txt 0 reference output).2 = some EXIT_FAILURE
      rw [hc]

/-- Concrete instance of the mismatch-detail theorem: on
`reference = [0, 7, 9]`, `output = [0, 8, 9]` the reported index is 1,
the least mismatch. -/
theorem compare_and_print_mismatch_detail_witness :
    (TestLib_compare_and_print "t" [0, 7, 9] [0, 8, 9]).stderr =
      [differLine "t" 1] ∧
    (TestLib_compare_and_print "t" [0, 7, 9] [0, 8, 9]).exit =
      some EXIT_FAILURE := by
  obtain ⟨j, hj1, hj3, hj4, _, h5, h6⟩ :=
    compare_and_print_mismatch_detail "t" [0, 7, 9] [0, 8, 9] 3 rfl rfl
      ⟨1, by decide, by decide⟩
  have hj : j = 1 := by
    interval_cases j
    · exact absurd rfl hj3
    · rfl
    · exact absurd (hj4 1 (by omega)) (by decide)
  subst hj
  exact ⟨h5, h6⟩

/-- The shared signed-checker body: exit code 253 exactly on inequality,
normal return exactly on equality, with the failure message printed on
inequality. -/
theorem checkBody_spec (x y : Int) :
    ((checkBody x y).exit = some 253 ↔ x ≠ y) ∧
    ((checkBody x y).exit = none ↔ x = y) ∧
    (x ≠ y →
      (checkBody x y).stdout = [checkFailLine (toString x) (toString y)]) := by
  by_cases h : x = y <;> simp [checkBody, h]

/-- The shared unsigned-checker body: same behaviour as the signed one. -/
theorem ucheckBody_spec (x y : Nat) :
    ((ucheckBody x y).exit = some 253 ↔ x ≠ y) ∧
    ((ucheckBody x y).exit = none ↔ x = y) ∧
    (x ≠ y →
      (ucheckBody x y).stdout = [checkFailLine (toString x) (toString y)]) := by
  by_cases h : x = y <;> simp [ucheckBody, h]

/-- C2: each of the eight checkers `TestLib_check8/16/32/64` and
`TestLib_checku8/16/32/64` terminates the process with exit code 253
(after printing the failure message) if and only if its arguments
differ, and returns normally if and only if they are equal. -/
theorem fixed_width_checks (x y : Int) (u v : Nat) :
    (∀ t ∈ [TestLib_check8 x y, TestLib_check16 x y, TestLib_check32 x y,
            TestLib_check64 x y],
       (t.exit = some 253 ↔ x ≠ y) ∧ (t.exit = none ↔ x = y) ∧
       (x ≠ y → t.stdout = [checkFailLine (toString x) (toString y)])) ∧
    (∀ t ∈ [TestLib_checku8 u v, TestLib_checku16 u v, TestLib_checku32 u v,
            TestLib_checku64 u v],
       (t.exit = some 253 ↔ u ≠ v) ∧ (t.exit = none ↔ u = v) ∧
       (u ≠ v → t.stdout = [checkFailLine (toString u) (toString v)])) := by
  constructor
  · intro t ht
    simp only [List.mem_cons, List.not_mem_nil, or_false] at ht
    rcases ht with rfl | rfl | rfl | rfl <;> exact checkBody_spec x y
  · intro t ht
    simp only [List.mem_cons, List.not_mem_nil, or_false] at ht
    rcases ht with rfl | rfl | rfl | rfl <;> exact ucheckBody_spec u v

/-- Concrete instance of the checker theorem: `TestLib_check8 1 2` exits
with code 253 and `TestLib_checku64 5 5` returns normally. -/
theorem fixed_width_checks_witness :
    (TestLib_check8 1 2).exit = some 253 ∧
    (TestLib_checku64 5 5).exit = none :=
  ⟨(((fixed_width_checks 1 2 0 0).1 (TestLib_check8 1 2)
      (by simp)).1).mpr (by decide),
   (((fixed_width_checks 0 0 5 5).2 (TestLib_checku64 5 5)
      (by simp)).2.1).mpr rfl⟩

/-- C4: `TestLib_unsafe_malloc` either returns the non-NULL pointer the
underlying `malloc` produced, or, when `malloc` returns `NULL`, prints a
warning and terminates the process with `EXIT_FAILURE`; whenever it
returns normally its result is non-NULL. -/
theorem unsafe_malloc_never_null (size : Nat) (memblob : Option Nat) :
    ((TestLib_unsafe_malloc size memblob).1.exit = none →
       ∃ p, (TestLib_unsafe_malloc size memblob).2 = some p) ∧
    (memblob = none →
       (TestLib_unsafe_malloc size memblob).1.exit = some EXIT_FAILURE ∧
       (TestLib_unsafe_malloc size memblob).1.stdout =
         [" WARNING : malloc failed in tests !"]) ∧
    (∀ p, memblob = some p →
       (TestLib_unsafe_malloc size memblob).2 = some p ∧
       (TestLib_unsafe_malloc size memblob).1.exit = none) := by
  cases memblob <;> simp [TestLib_unsafe_malloc]

/-- Concrete instance of the `TestLib_unsafe_malloc` theorem: on a `NULL`
result it exits with `EXIT_FAILURE`; on a successful allocation it
returns that pointer. -/
theorem unsafe_malloc_never_null_witness :
    (TestLib_unsafe_malloc 5 none).1.exit = some EXIT_FAILURE ∧
    (TestLib_unsafe_malloc 5 (some 7)).2 = some 7 :=
  ⟨((unsafe_malloc_never_null 5 none).2.1 rfl).1,
   ((unsafe_malloc_never_null 5 (some 7)).2.2 7 rfl).1⟩

/-- C5 counterexample: when its internal `malloc` fails, `print_buf` does
not terminate the process with `EXIT_FAILURE`: the source never checks
the result, and the next store dereferences the null pointer (undefined
behaviour, `Except.error ()`), so no trace with a deliberate
`EXIT_FAILURE` exit exists. -/
theorem alloc_failure_unchecked_cex :
    print_buf_on_alloc [0] "f" 1 none = Except.error () ∧
    ¬ ∃ t : Trace, print_buf_on_alloc [0] "f" 1 none = Except.ok t ∧
        t.exit = some EXIT_FAILURE := by
  refine ⟨rfl, ?_⟩
  rintro ⟨t, ht, _⟩
  simp [print_buf_on_alloc] at ht

/-- C5 amended: only `TestLib_unsafe_malloc` handles allocation failure by
terminating with `EXIT_FAILURE`; `print_buf` and
`TestLib_compare_and_print` do not check their internal allocations and
on failure of either one they dereference the null pointer (undefined
behaviour) instead of deliberately terminating. -/
theorem alloc_failure_behaviour (size : Nat) (buf : List Nat) (file : String)
    (line : Int) (txt : String) (reference output : List Nat)
    (m1 m2 : Option Nat) :
    (TestLib_unsafe_malloc size none).1.exit = some EXIT_FAILURE ∧
    print_buf_on_alloc buf file line none = Except.error () ∧
    TestLib_compare_and_print_on_alloc txt reference output none m2 =
      Except.error () ∧
    TestLib_compare_and_print_on_alloc txt reference output m1 none =
      Except.error () := by
  refine ⟨rfl, rfl, ?_, ?_⟩
  · cases m2 <;> rfl
  · cases m1 <;> rfl

/-- C6 counterexample: `print_buf` returns normally having allocated its
hex block and freed nothing — the block leaks. -/
theorem print_buf_never_frees_cex :
    (print_buf [0] "f" 1).exit = none ∧
    (print_buf [0] "f" 1).allocs = [0] ∧
    (print_buf [0] "f" 1).frees = [] :=
  ⟨rfl, rfl, rfl⟩

/-- C6 amended: `TestLib_compare_and_print` frees exactly the blocks it
allocated before returning on the success path, and on the mismatch path
it exits before any `free` runs; `print_buf` never frees its block. -/
theorem free_discipline (txt : String) (reference output buf : List Nat)
    (file : String) (line : Int) :
    ((TestLib_compare_and_print txt reference output).exit = none →
       (TestLib_compare_and_print txt reference output).frees =
         (TestLib_compare_and_print txt reference output).allocs) ∧
    ((TestLib_compare_and_print txt reference output).exit ≠ none →
       (TestLib_compare_and_print txt reference output).frees = []) ∧
    (print_buf buf file line).frees = [] := by
  refine ⟨?_, ?_, rfl⟩
  · intro h
    show (if (cmpLoop txt 0 reference output).2 = none then [0, 1] else []) =
      [0, 1]
    exact if_pos h
  · intro h
    show (if (cmpLoop txt 0 reference output).2 = none then [0, 1] else []) =
      []
    exact if_neg h

/-- Concrete instance of the free-discipline theorem: on equal buffers the
call frees exactly what it allocated. -/
theorem free_discipline_witness :
    (TestLib_compare_and_print "t" [4] [4]).frees =
      (TestLib_compare_and_print "t" [4] [4]).allocs :=
  (free_discipline "t" [4] [4] [] "f" 1).1 rfl

/-- Every store of one `sprintf` goes to the block it was given. -/
theorem sprintfWrites_fst (blk off b : Nat) :
    ∀ w ∈ sprintfWrites blk off b, w.1 = blk := by
  intro w hw
  simp only [sprintfWrites, List.mem_cons, List.not_mem_nil, or_false] at hw
  rcases hw with rfl | rfl | rfl <;> rfl

/-- Every store of the `print_buf` formatting loop goes to its block. -/
theorem fmtWrites_fst (blk : Nat) (l : List Nat) :
    ∀ off, ∀ w ∈ fmtWrites blk off l, w.1 = blk := by
  induction l with
  | nil => intro off w hw; simp [fmtWrites] at hw
  | cons b bs ih =>
    intro off w hw
    simp only [fmtWrites, List.mem_append] at hw
    rcases hw with hw | hw
    · exact sprintfWrites_fst blk off b w hw
    · exact ih (off + 2) w hw

/-- Every store of the comparison function's formatting loop goes to one
of its two blocks. -/
theorem cmpFmtWrites_fst (rs : List Nat) :
    ∀ (os : List Nat) (off : Nat), ∀ w ∈ cmpFmtWrites off rs os,
      w.1 = 0 ∨ w.1 = 1 := by
  induction rs with
  | nil => intro os off w hw; simp [cmpFmtWrites] at hw
  | cons r rs ih =>
    intro os off w hw
    cases os with
    | nil => simp [cmpFmtWrites] at hw
    | cons o os =>
      simp only [cmpFmtWrites, List.mem_append] at hw
      rcases hw with (hw | hw) | hw
      · exact Or.inl (sprintfWrites_fst 0 off o w hw)
      · exact Or.inr (sprintfWrites_fst 1 off r w hw)
      · exact ih os (off + 2) w hw

/-- C9: every store performed by `print_buf` and by
`TestLib_compare_and_print` targets a heap block the call itself
allocated; in particular the caller-supplied byte buffers, which are not
heap blocks of the call, are never modified (on the returning path and on
the aborting path alike). -/
theorem no_writes_to_input_buffers (buf : List Nat) (file : String)
    (line : Int) (txt : String) (reference output : List Nat) :
    (∀ w ∈ (print_buf buf file line).writes,
       w.1 ∈ (print_buf buf file line).allocs) ∧
    (∀ w ∈ (TestLib_compare_and_print txt reference output).writes,
       w.1 ∈ (TestLib_compare_and_print txt reference output).allocs) := by
  constructor
  · intro w hw
    have hw2 : w ∈ fmtWrites 0 0 buf ++ [(0, 2 * buf.length, 0)] := hw
    show w.1 ∈ [0]
    rcases List.mem_append.mp hw2 with hw3 | hw3
    · simp [fmtWrites_fst 0 buf 0 w hw3]
    · simp only [List.mem_cons, List.not_mem_nil, or_false] at hw3
      rw [hw3]
      simp
  · intro w hw
    have hw2 : w ∈ cmpFmtWrites 0 reference output ++
        [(0, 2 * output.length, 0), (1, 2 * reference.length, 0)] := hw
    show w.1 ∈ [0, 1]
    rcases List.mem_append.mp hw2 with hw3 | hw3
    · rcases cmpFmtWrites_fst reference output 0 w hw3 with h | h <;> simp [h]
    · simp only [List.mem_cons, List.not_mem_nil, or_false] at hw3
      rcases hw3 with rfl | rfl <;> simp

/-- C10: `TestLib_perr` prints the error code and returns normally for
every value (including 0), and `TestLib_touch` returns normally with no
observable effect at all. -/
theorem perr_touch_return_normally (e : Nat) (x : Int) :
    (TestLib_perr e).exit = none ∧
    (TestLib_perr e).stdout = ["Got error code " ++ toString e ++ "."] ∧
    (TestLib_perr e).stderr = [] ∧
    TestLib_touch x =
      { stdout := [], stderr := [], exit := none, allocs := [], frees := [],
        writes := [] } :=
  ⟨rfl, rfl, rfl, rfl⟩

/-- C8: the timing helpers always return normally, and the quantity they
print is the counter difference divided by `CLOCKS_PER_SEC`
(respectively by the number of rounds). -/
theorem timing_helpers_spec (t1 t2 c1 c2 : Int) (rounds : Nat) :
    (TestLib_print_clock_diff t1 t2).1.exit = none ∧
    (TestLib_print_clock_diff t1 t2).2 =
      ((t2 : ℚ) - (t1 : ℚ)) / CLOCKS_PER_SEC ∧
    (TestLib_print_cycles_per_round c1 c2 rounds).1.exit = none ∧
    (TestLib_print_cycles_per_round c1 c2 rounds).2 =
      ((c2 : ℚ) - (c1 : ℚ)) / (rounds : ℚ) :=
  ⟨rfl, rfl, rfl, rfl⟩

/-- Concrete instance of the write-locality theorem: the NUL-terminator
store of `print_buf [171]` targets block 0, the block the call
allocated. -/
theorem no_writes_to_input_buffers_witness :
    ((0, 2, 0) : Nat × Nat × Nat).1 ∈ (print_buf [171] "f" 1).allocs :=
  (no_writes_to_input_buffers [171] "f" 1 "t" [] []).1
    ((0, 2, 0) : Nat × Nat × Nat) (by decide)
